import Mathlib

/-!
# Verification of the chip-data platform layer (`platform_layer.js`)

Shallow embedding of the platform-layer module: per-reading validation,
anomaly detection, health scoring, bounded history logs and the two report
generators, together with proofs settling the frozen claims about the
natural-language specification.

Modelling conventions:
* JS numbers are modelled as `ℚ`.  A metric field that may be missing
  (`undefined`/`null`) or a computation that may produce `NaN` is modelled as
  `Option ℚ` (`none` = missing / NaN): every JS comparison involving
  `undefined` or `NaN` evaluates to `false`, which the `o*` helpers mirror.
* The only place the source can throw is `x.toFixed(...)` applied to an
  `undefined` property; those call sites run in `Except JsErr`.
* Wall-clock reads (`Date.now()`, `toLocaleTimeString`) and the DOM event
  publication (`triggerAnomalyEvent`) are outside the model: readings carry
  their own `timestamp` and display-only `timeString` fields are omitted.
-/

/-- The one JS exception that the modelled code can raise: a property access
such as `undefined.toFixed(1)`. -/
inductive JsErr where
  | typeError
deriving DecidableEq

/-- `a < b` on a possibly-missing JS number: `undefined`/`NaN` compares false. -/
def oLt (a : Option ℚ) (b : ℚ) : Bool :=
  match a with
  | some x => decide (x < b)
  | none => false

/-- `a > b` on a possibly-missing JS number: `undefined`/`NaN` compares false. -/
def oGt (a : Option ℚ) (b : ℚ) : Bool :=
  match a with
  | some x => decide (b < x)
  | none => false

/-- `a ≤ b` on a possibly-missing JS number: `undefined`/`NaN` compares false. -/
def oLe (a : Option ℚ) (b : ℚ) : Bool :=
  match a with
  | some x => decide (x ≤ b)
  | none => false

/-- `b ≤ a` on a possibly-missing JS number: `undefined`/`NaN` compares false. -/
def oGe (a : Option ℚ) (b : ℚ) : Bool :=
  match a with
  | some x => decide (b ≤ x)
  | none => false

/-- `Math.abs(a - b) > c` where either operand may be missing: with an
`undefined` operand the difference is `NaN` and the comparison is false. -/
def oAbsGt (a b : Option ℚ) (c : ℚ) : Bool :=
  match a, b with
  | some x, some y => decide (c < |x - y|)
  | _, _ => false

/-- `Math.round`: round half toward positive infinity. -/
def jround (q : ℚ) : ℤ := ⌊q + 1 / 2⌋

/-- The rational value of `q.toFixed(digits)` (ECMA: round |q| half up to
`digits` decimals, then re-attach the sign). -/
def toFixedQ (digits : ℕ) (q : ℚ) : ℚ :=
  (if q < 0 then -1 else 1) * ((⌊|q| * 10 ^ digits + 1 / 2⌋ : ℤ) : ℚ) / 10 ^ digits

/-- The string `q.toFixed(digits)` renders to. -/
def toFixedStr (digits : ℕ) (q : ℚ) : String :=
  let n : ℤ := ⌊|q| * 10 ^ digits + 1 / 2⌋
  let ip : ℤ := n / 10 ^ digits
  let fp : ℤ := n % 10 ^ digits
  let fs : String := toString fp
  let pad : String := String.mk (List.replicate (digits - fs.length) '0')
  (if q < 0 then "-" else "") ++
    (if digits = 0 then toString ip else toString ip ++ "." ++ pad ++ fs)

/-- `v.toFixed(digits)` on a raw (possibly absent) property: accessing
`toFixed` on `undefined` throws a TypeError. -/
def jsToFixed (digits : ℕ) (v : Option ℚ) : Except JsErr String :=
  match v with
  | some q => .ok (toFixedStr digits q)
  | none => .error .typeError

/-- `v.toFixed(digits)` on a number-valued expression that may be `NaN`
(e.g. a mean over incomplete data): `NaN.toFixed(1) = "NaN"`, no throw. -/
def nanToFixed (digits : ℕ) (v : Option ℚ) : String :=
  match v with
  | some q => toFixedStr digits q
  | none => "NaN"

/-- One raw reading: a timestamp plus the six metric fields, any of which
may be absent from the incoming object. -/
structure Reading where
  timestamp : ℚ
  temperature : Option ℚ
  voltage : Option ℚ
  current : Option ℚ
  vibration : Option ℚ
  displacement : Option ℚ
  tilt : Option ℚ
deriving DecidableEq

/-- A two-sided configured range. -/
structure MinMax where
  min : ℚ
  max : ℚ
deriving DecidableEq

/-- A one-sided configured range (max only). -/
structure MaxOnly where
  max : ℚ
deriving DecidableEq

/-- A normal range: bounds plus the display unit. -/
structure NormalRange where
  min : ℚ
  max : ℚ
  unit : String
deriving DecidableEq

structure NormalRanges where
  temperature : NormalRange
  voltage : NormalRange
  current : NormalRange
  vibration : NormalRange
  displacement : NormalRange
  tilt : NormalRange
deriving DecidableEq

structure TwoSidedOneSided where
  temperature : MinMax
  voltage : MinMax
  current : MinMax
  vibration : MaxOnly
  displacement : MaxOnly
  tilt : MaxOnly
deriving DecidableEq

structure DataQualityParams where
  completenessThreshold : ℚ
  accuracyThreshold : ℚ
  stabilityThreshold : ℚ
deriving DecidableEq

structure HealthScoreWeights where
  temperature : ℚ
  voltage : ℚ
  current : ℚ
  vibration : ℚ
  displacement : ℚ
  tilt : ℚ
deriving DecidableEq

/-- The module's `config` object. -/
structure Config where
  normalRanges : NormalRanges
  warningThresholds : TwoSidedOneSided
  anomalyThresholds : TwoSidedOneSided
  dataQualityParams : DataQualityParams
  healthScoreWeights : HealthScoreWeights
  historyLimit : ℕ
deriving DecidableEq

/-- The configuration constants of `platform_layer.js`. -/
def config : Config where
  normalRanges :=
    { temperature := ⟨20, 30, "°C"⟩
      voltage := ⟨16 / 5, 17 / 5, "G"⟩
      current := ⟨140, 160, "Z"⟩
      vibration := ⟨0, 1 / 10, "g"⟩
      displacement := ⟨0, 1, "mm"⟩
      tilt := ⟨0, 5, "°"⟩ }
  warningThresholds :=
    { temperature := ⟨18, 32⟩
      voltage := ⟨3, 18 / 5⟩
      current := ⟨120, 180⟩
      vibration := ⟨2 / 25⟩
      displacement := ⟨4 / 5⟩
      tilt := ⟨4⟩ }
  anomalyThresholds :=
    { temperature := ⟨15, 35⟩
      voltage := ⟨14 / 5, 19 / 5⟩
      current := ⟨100, 200⟩
      vibration := ⟨9 / 100⟩
      displacement := ⟨9 / 10⟩
      tilt := ⟨9 / 2⟩ }
  dataQualityParams := ⟨95, 90, 85⟩
  healthScoreWeights := ⟨1 / 5, 1 / 5, 1 / 5, 3 / 20, 3 / 20, 1 / 10⟩
  historyLimit := 1000

/-- `validateDataCompleteness`: false as soon as one of the six required
fields is `undefined` or `null`. -/
def validateDataCompleteness (data : Reading) : Bool :=
  data.temperature.isSome && data.voltage.isSome && data.current.isSome &&
    data.vibration.isSome && data.displacement.isSome && data.tilt.isSome

/-- `calculateMetricScore` (two-sided metrics): 100 inside the normal range,
linear interpolation inside the anomaly range, 0 beyond it.  A missing value
fails every range test and falls through to 0. -/
def calculateMetricScore (value : Option ℚ)
    (normalMin normalMax anomalyMin anomalyMax : ℚ) : ℚ :=
  if oGe value normalMin && oLe value normalMax then 100
  else if oGe value anomalyMin && oLe value anomalyMax then
    -- this branch is only reachable when the comparisons saw a number
    let v := value.getD 0
    if v < normalMin then
      100 - (normalMin - v) / (normalMin - anomalyMin) * 100
    else
      100 - (v - normalMax) / (anomalyMax - normalMax) * 100
  else 0

/-- `calculateUpperBoundScore` (one-sided metrics). -/
def calculateUpperBoundScore (value : Option ℚ) (normalMax anomalyMax : ℚ) : ℚ :=
  if oLe value normalMax then 100
  else if oLe value anomalyMax then
    let v := value.getD 0
    100 - (v - normalMax) / (anomalyMax - normalMax) * 100
  else 0

/-- `calculateHealthScore`: start from 100, subtract the weighted
complement of each per-metric score, round and clamp to `[0, 100]`. -/
def calculateHealthScore (data : Reading) : ℤ :=
  let score : ℚ := 100
  let tempScore := calculateMetricScore data.temperature
    config.normalRanges.temperature.min config.normalRanges.temperature.max
    config.anomalyThresholds.temperature.min config.anomalyThresholds.temperature.max
  let score := score - (100 - tempScore) * config.healthScoreWeights.temperature
  let voltageScore := calculateMetricScore data.voltage
    config.normalRanges.voltage.min config.normalRanges.voltage.max
    config.anomalyThresholds.voltage.min config.anomalyThresholds.voltage.max
  let score := score - (100 - voltageScore) * config.healthScoreWeights.voltage
  let currentScore := calculateMetricScore data.current
    config.normalRanges.current.min config.normalRanges.current.max
    config.anomalyThresholds.current.min config.anomalyThresholds.current.max
  let score := score - (100 - currentScore) * config.healthScoreWeights.current
  let vibrationScore := calculateUpperBoundScore data.vibration
    config.normalRanges.vibration.max config.anomalyThresholds.vibration.max
  let score := score - (100 - vibrationScore) * config.healthScoreWeights.vibration
  let displacementScore := calculateUpperBoundScore data.displacement
    config.normalRanges.displacement.max config.anomalyThresholds.displacement.max
  let score := score - (100 - displacementScore) * config.healthScoreWeights.displacement
  let tiltScore := calculateUpperBoundScore data.tilt
    config.normalRanges.tilt.max config.anomalyThresholds.tilt.max
  let score := score - (100 - tiltScore) * config.healthScoreWeights.tilt
  max 0 (min 100 (jround score))

/-- `determineHealthStatus` text/colour pair. -/
structure HealthStatus where
  text : String
  color : String
deriving DecidableEq

/-- `determineHealthStatus`: classify a 0–100 score. -/
def determineHealthStatus (score : ℤ) : HealthStatus :=
  if 90 ≤ score then ⟨"优秀", "bg-green-500"⟩
  else if 80 ≤ score then ⟨"良好", "bg-green-400"⟩
  else if 70 ≤ score then ⟨"正常", "bg-blue-400"⟩
  else if 60 ≤ score then ⟨"警告", "bg-yellow-500"⟩
  else ⟨"危险", "bg-red-500"⟩

/-! ## Anomaly detection

`detectAnomaly` runs six threshold blocks in a fixed order, each of which
*overwrites* the result when its metric is out of bounds; there is no early
return.  `reason` is built with `value.toFixed(...)`, which throws when the
property is absent — hence the `Except` carrier; the guard comparisons are
false for an absent value, so the throwing call sites are unreachable. -/

/-- The anomaly verdict `{isAnomaly, reason}`. -/
structure AnomalyResult where
  isAnomaly : Bool
  reason : String
deriving DecidableEq

def tempLowB (d : Reading) : Bool := oLt d.temperature config.anomalyThresholds.temperature.min
def tempHighB (d : Reading) : Bool := oGt d.temperature config.anomalyThresholds.temperature.max
def voltLowB (d : Reading) : Bool := oLt d.voltage config.anomalyThresholds.voltage.min
def voltHighB (d : Reading) : Bool := oGt d.voltage config.anomalyThresholds.voltage.max
def curLowB (d : Reading) : Bool := oLt d.current config.anomalyThresholds.current.min
def curHighB (d : Reading) : Bool := oGt d.current config.anomalyThresholds.current.max
def vibHighB (d : Reading) : Bool := oGt d.vibration config.anomalyThresholds.vibration.max
def dispHighB (d : Reading) : Bool := oGt d.displacement config.anomalyThresholds.displacement.max
def tiltHighB (d : Reading) : Bool := oGt d.tilt config.anomalyThresholds.tilt.max

/-- Temperature block of `detectAnomaly` (threshold literals `15`/`35`
rendered as in the source's template strings). -/
def tempStep (d : Reading) (r : AnomalyResult) : Except JsErr AnomalyResult :=
  if tempLowB d then
    (jsToFixed 1 d.temperature).map fun s => ⟨true, "温度过低 (" ++ s ++ "°C < 15°C)"⟩
  else if tempHighB d then
    (jsToFixed 1 d.temperature).map fun s => ⟨true, "温度过高 (" ++ s ++ "°C > 35°C)"⟩
  else .ok r

/-- Voltage ("压力值") block of `detectAnomaly`. -/
def voltageStep (d : Reading) (r : AnomalyResult) : Except JsErr AnomalyResult :=
  if voltLowB d then
    (jsToFixed 2 d.voltage).map fun s => ⟨true, "压力值过低 (" ++ s ++ "G < 2.8G)"⟩
  else if voltHighB d then
    (jsToFixed 2 d.voltage).map fun s => ⟨true, "压力值过高 (" ++ s ++ "G > 3.8G)"⟩
  else .ok r

/-- Current ("震动程度") block of `detectAnomaly`. -/
def currentStep (d : Reading) (r : AnomalyResult) : Except JsErr AnomalyResult :=
  if curLowB d then
    (jsToFixed 1 d.current).map fun s => ⟨true, "震动程度过低 (" ++ s ++ "Z < 100Z)"⟩
  else if curHighB d then
    (jsToFixed 1 d.current).map fun s => ⟨true, "震动程度过高 (" ++ s ++ "Z > 200Z)"⟩
  else .ok r

/-- Vibration block of `detectAnomaly`. -/
def vibrationStep (d : Reading) (r : AnomalyResult) : Except JsErr AnomalyResult :=
  if vibHighB d then
    (jsToFixed 3 d.vibration).map fun s => ⟨true, "振动强度过高 (" ++ s ++ "g > 0.09g)"⟩
  else .ok r

/-- Displacement block of `detectAnomaly`. -/
def displacementStep (d : Reading) (r : AnomalyResult) : Except JsErr AnomalyResult :=
  if dispHighB d then
    (jsToFixed 2 d.displacement).map fun s => ⟨true, "位移过大 (" ++ s ++ "mm > 0.9mm)"⟩
  else .ok r

/-- Tilt block of `detectAnomaly`. -/
def tiltStep (d : Reading) (r : AnomalyResult) : Except JsErr AnomalyResult :=
  if tiltHighB d then
    (jsToFixed 2 d.tilt).map fun s => ⟨true, "倾斜角度过大 (" ++ s ++ "° > 4.5°)"⟩
  else .ok r

/-- `detectAnomaly`: the six blocks run in order, later hits overwriting
earlier ones. -/
def detectAnomaly (d : Reading) : Except JsErr AnomalyResult := do
  let r : AnomalyResult := ⟨false, ""⟩
  let r ← tempStep d r
  let r ← voltageStep d r
  let r ← currentStep d r
  let r ← vibrationStep d r
  let r ← displacementStep d r
  tiltStep d r

def tempStepPure (d : Reading) (r : AnomalyResult) : AnomalyResult :=
  if tempLowB d then ⟨true, "温度过低 (" ++ nanToFixed 1 d.temperature ++ "°C < 15°C)"⟩
  else if tempHighB d then ⟨true, "温度过高 (" ++ nanToFixed 1 d.temperature ++ "°C > 35°C)"⟩
  else r

def voltageStepPure (d : Reading) (r : AnomalyResult) : AnomalyResult :=
  if voltLowB d then ⟨true, "压力值过低 (" ++ nanToFixed 2 d.voltage ++ "G < 2.8G)"⟩
  else if voltHighB d then ⟨true, "压力值过高 (" ++ nanToFixed 2 d.voltage ++ "G > 3.8G)"⟩
  else r

def currentStepPure (d : Reading) (r : AnomalyResult) : AnomalyResult :=
  if curLowB d then ⟨true, "震动程度过低 (" ++ nanToFixed 1 d.current ++ "Z < 100Z)"⟩
  else if curHighB d then ⟨true, "震动程度过高 (" ++ nanToFixed 1 d.current ++ "Z > 200Z)"⟩
  else r

def vibrationStepPure (d : Reading) (r : AnomalyResult) : AnomalyResult :=
  if vibHighB d then ⟨true, "振动强度过高 (" ++ nanToFixed 3 d.vibration ++ "g > 0.09g)"⟩
  else r

def displacementStepPure (d : Reading) (r : AnomalyResult) : AnomalyResult :=
  if dispHighB d then ⟨true, "位移过大 (" ++ nanToFixed 2 d.displacement ++ "mm > 0.9mm)"⟩
  else r

def tiltStepPure (d : Reading) (r : AnomalyResult) : AnomalyResult :=
  if tiltHighB d then ⟨true, "倾斜角度过大 (" ++ nanToFixed 2 d.tilt ++ "° > 4.5°)"⟩
  else r

/-- The throw-free value `detectAnomaly` computes (the throwing call sites
are all behind guards that fail on a missing value). -/
def detectAnomalyPure (d : Reading) : AnomalyResult :=
  tiltStepPure d (displacementStepPure d (vibrationStepPure d
    (currentStepPure d (voltageStepPure d (tempStepPure d ⟨false, ""⟩)))))

theorem tempStep_ok (d : Reading) (r : AnomalyResult) :
    tempStep d r = .ok (tempStepPure d r) := by
  cases h : d.temperature <;>
    simp [tempStep, tempStepPure, tempLowB, tempHighB, oLt, oGt, h, jsToFixed,
      nanToFixed, Except.map]
  split_ifs <;> rfl

theorem voltageStep_ok (d : Reading) (r : AnomalyResult) :
    voltageStep d r = .ok (voltageStepPure d r) := by
  cases h : d.voltage <;>
    simp [voltageStep, voltageStepPure, voltLowB, voltHighB, oLt, oGt, h, jsToFixed,
      nanToFixed, Except.map]
  split_ifs <;> rfl

theorem currentStep_ok (d : Reading) (r : AnomalyResult) :
    currentStep d r = .ok (currentStepPure d r) := by
  cases h : d.current <;>
    simp [currentStep, currentStepPure, curLowB, curHighB, oLt, oGt, h, jsToFixed,
      nanToFixed, Except.map]
  split_ifs <;> rfl

theorem vibrationStep_ok (d : Reading) (r : AnomalyResult) :
    vibrationStep d r = .ok (vibrationStepPure d r) := by
  cases h : d.vibration <;>
    simp [vibrationStep, vibrationStepPure, vibHighB, oGt, h, jsToFixed,
      nanToFixed, Except.map]
  split_ifs <;> rfl

theorem displacementStep_ok (d : Reading) (r : AnomalyResult) :
    displacementStep d r = .ok (displacementStepPure d r) := by
  cases h : d.displacement <;>
    simp [displacementStep, displacementStepPure, dispHighB, oGt, h, jsToFixed,
      nanToFixed, Except.map]
  split_ifs <;> rfl

theorem tiltStep_ok (d : Reading) (r : AnomalyResult) :
    tiltStep d r = .ok (tiltStepPure d r) := by
  cases h : d.tilt <;>
    simp [tiltStep, tiltStepPure, tiltHighB, oGt, h, jsToFixed,
      nanToFixed, Except.map]
  split_ifs <;> rfl

/-- `detectAnomaly` never throws: the guard in front of every `toFixed` call
fails on a missing value, so the computation is the pure overwrite chain. -/
theorem detectAnomaly_ok (d : Reading) :
    detectAnomaly d = .ok (detectAnomalyPure d) := by
  simp [detectAnomaly, detectAnomalyPure, tempStep_ok, voltageStep_ok,
    currentStep_ok, vibrationStep_ok, displacementStep_ok, tiltStep_ok,
    Bind.bind, Except.bind]

/-- The verdict stated by the amended claim C3: exactly one reason is
reported, namely the reason of the *last* out-of-bounds metric in the
evaluation order temperature, voltage, current, vibration, displacement,
tilt (later blocks overwrite earlier ones; there is no early stop). -/
def lastMatchSpec (d : Reading) : AnomalyResult :=
  if tiltHighB d then ⟨true, "倾斜角度过大 (" ++ nanToFixed 2 d.tilt ++ "° > 4.5°)"⟩
  else if dispHighB d then ⟨true, "位移过大 (" ++ nanToFixed 2 d.displacement ++ "mm > 0.9mm)"⟩
  else if vibHighB d then ⟨true, "振动强度过高 (" ++ nanToFixed 3 d.vibration ++ "g > 0.09g)"⟩
  else if curLowB d then ⟨true, "震动程度过低 (" ++ nanToFixed 1 d.current ++ "Z < 100Z)"⟩
  else if curHighB d then ⟨true, "震动程度过高 (" ++ nanToFixed 1 d.current ++ "Z > 200Z)"⟩
  else if voltLowB d then ⟨true, "压力值过低 (" ++ nanToFixed 2 d.voltage ++ "G < 2.8G)"⟩
  else if voltHighB d then ⟨true, "压力值过高 (" ++ nanToFixed 2 d.voltage ++ "G > 3.8G)"⟩
  else if tempLowB d then ⟨true, "温度过低 (" ++ nanToFixed 1 d.temperature ++ "°C < 15°C)"⟩
  else if tempHighB d then ⟨true, "温度过高 (" ++ nanToFixed 1 d.temperature ++ "°C > 35°C)"⟩
  else ⟨false, ""⟩

theorem detectAnomalyPure_eq_lastMatch (d : Reading) :
    detectAnomalyPure d = lastMatchSpec d := by
  unfold detectAnomalyPure lastMatchSpec tempStepPure voltageStepPure currentStepPure
    vibrationStepPure displacementStepPure tiltStepPure
  by_cases h1 : tempLowB d = true <;> by_cases h2 : tempHighB d = true <;>
  by_cases h3 : voltLowB d = true <;> by_cases h4 : voltHighB d = true <;>
  by_cases h5 : curLowB d = true <;> by_cases h6 : curHighB d = true <;>
  by_cases h7 : vibHighB d = true <;> by_cases h8 : dispHighB d = true <;>
  by_cases h9 : tiltHighB d = true <;>
  simp [h1, h2, h3, h4, h5, h6, h7, h8, h9]

/-! ## History records and the stateful validator -/

/-- One entry of `processedDataHistory` (`recordProcessedData`).  The
display-only `timeString` and the `Date.now()` fallback for a missing
timestamp are outside the model. -/
structure ProcessedRecord where
  timestamp : ℚ
  data : Reading
  healthScore : ℤ
  isAnomaly : Bool
  anomalyReason : String
deriving DecidableEq

/-- One entry of `healthHistory` (`recordHealthHistory`); its `Date.now()`
timestamp is outside the model. -/
structure HealthSample where
  score : ℤ
deriving DecidableEq

/-- One entry of `anomalyLog` (`logAnomaly`), minus the display-only
`timeString`. -/
structure AnomalyRecord where
  timestamp : ℚ
  data : Reading
  reason : String
deriving DecidableEq

/-- The module-level mutable state: the three history logs. -/
structure PlatformState where
  processedDataHistory : List ProcessedRecord
  anomalyLog : List AnomalyRecord
  healthHistory : List HealthSample
deriving DecidableEq

/-- The state at module load: all three logs empty. -/
def initialState : PlatformState := ⟨[], [], []⟩

/-- `validateDataAccuracy` reads `lastData.temperature` where `lastData` is a
*history record*; the record keeps the reading under `.data` and has no
`temperature` field of its own, so the access yields `undefined`.  The same
holds for the other five metrics below. -/
def recTemperature (_ : ProcessedRecord) : Option ℚ := none

/-- `lastData.voltage` on a history record: the field is absent (see
`recTemperature`). -/
def recVoltage (_ : ProcessedRecord) : Option ℚ := none

/-- `lastData.current` on a history record: the field is absent. -/
def recCurrent (_ : ProcessedRecord) : Option ℚ := none

/-- `lastData.vibration` on a history record: the field is absent. -/
def recVibration (_ : ProcessedRecord) : Option ℚ := none

/-- `lastData.displacement` on a history record: the field is absent. -/
def recDisplacement (_ : ProcessedRecord) : Option ℚ := none

/-- `lastData.tilt` on a history record: the field is absent. -/
def recTilt (_ : ProcessedRecord) : Option ℚ := none

/-- `validateDataAccuracy`: hard absolute bounds on the current reading,
then (when a previous processed record exists) rate-of-change ceilings
against `lastData` — whose metric fields are absent, so each
`Math.abs(x - undefined) > c` test is a `NaN` comparison and never fires. -/
def validateDataAccuracy (hist : List ProcessedRecord) (data : Reading) : Bool :=
  if oLt data.temperature (-50) || oGt data.temperature 150 then false
  else if oLt data.voltage 0 || oGt data.voltage 10 then false
  else if oLt data.current 0 || oGt data.current 1000 then false
  else if oLt data.vibration 0 || oGt data.vibration 1 then false
  else if oLt data.displacement 0 || oGt data.displacement 10 then false
  else if oLt data.tilt 0 || oGt data.tilt 90 then false
  else
    match hist.getLast? with
    | none => true
    | some lastData =>
      if oAbsGt data.temperature (recTemperature lastData) 5 then false
      else if oAbsGt data.voltage (recVoltage lastData) (1 / 2) then false
      else if oAbsGt data.current (recCurrent lastData) 50 then false
      else if oAbsGt data.vibration (recVibration lastData) (1 / 20) then false
      else if oAbsGt data.displacement (recDisplacement lastData) (1 / 2) then false
      else if oAbsGt data.tilt (recTilt lastData) 2 then false
      else true

/-- The absolute-bound part of `validateDataAccuracy` on its own. -/
def absoluteBoundsOk (data : Reading) : Bool :=
  !(oLt data.temperature (-50) || oGt data.temperature 150) &&
  !(oLt data.voltage 0 || oGt data.voltage 10) &&
  !(oLt data.current 0 || oGt data.current 1000) &&
  !(oLt data.vibration 0 || oGt data.vibration 1) &&
  !(oLt data.displacement 0 || oGt data.displacement 10) &&
  !(oLt data.tilt 0 || oGt data.tilt 90)

/-- The rate-of-change block of `validateDataAccuracy` is inert: every delta
test reads an absent field of the previous record, so the whole check
reduces to the absolute bounds of the current reading alone. -/
theorem validateDataAccuracy_eq_absolute (hist : List ProcessedRecord) (data : Reading) :
    validateDataAccuracy hist data = absoluteBoundsOk data := by
  unfold validateDataAccuracy absoluteBoundsOk
  cases hist.getLast? <;>
    simp [oAbsGt, recTemperature, recVoltage, recCurrent, recVibration,
      recDisplacement, recTilt, Bool.and_assoc]

/-! ## The ingest pipeline -/

/-- The push-then-shift idiom shared by the three logs:
`log.push(entry); if (log.length > cap) log.shift();`. -/
def jsPush {α : Type} (l : List α) (e : α) (cap : ℕ) : List α :=
  let pushed := l ++ [e]
  if cap < pushed.length then pushed.tail else pushed

/-- `recordProcessedData`: append the processed record, evicting the oldest
entry beyond `config.historyLimit`. -/
def recordProcessedData (s : PlatformState) (data : Reading) (healthScore : ℤ)
    (anomalyResult : AnomalyResult) : PlatformState :=
  { s with processedDataHistory :=
      (jsPush s.processedDataHistory
        ⟨data.timestamp, data, healthScore, anomalyResult.isAnomaly, anomalyResult.reason⟩
        config.historyLimit) }

/-- `recordHealthHistory`, capped at `config.historyLimit`. -/
def recordHealthHistory (s : PlatformState) (score : ℤ) : PlatformState :=
  { s with healthHistory := jsPush s.healthHistory ⟨score⟩ config.historyLimit }

/-- `logAnomaly`: the source caps this log with the literal `1000` rather
than `config.historyLimit` (the two coincide). -/
def logAnomaly (s : PlatformState) (data : Reading) (reason : String) : PlatformState :=
  { s with anomalyLog := jsPush s.anomalyLog ⟨data.timestamp, data, reason⟩ 1000 }

/-- The return value of `receiveData`. -/
structure ReceiveResult where
  rawData : Reading
  isComplete : Bool
  isAccurate : Bool
  isAnomaly : Bool
  anomalyReason : String
  healthScore : ℤ
  healthStatus : HealthStatus
deriving DecidableEq

/-- `receiveData`: validate, detect, score, record, log, return.  The
`triggerAnomalyEvent` DOM publication carries no core state and is outside
the model. -/
def receiveData (s : PlatformState) (rawData : Reading) :
    Except JsErr (ReceiveResult × PlatformState) := do
  let isComplete := validateDataCompleteness rawData
  let isAccurate := validateDataAccuracy s.processedDataHistory rawData
  let anomalyResult ← detectAnomaly rawData
  let healthScore := calculateHealthScore rawData
  let healthStatus := determineHealthStatus healthScore
  let s1 := recordProcessedData s rawData healthScore anomalyResult
  let result : ReceiveResult :=
    ⟨rawData, isComplete, isAccurate, anomalyResult.isAnomaly, anomalyResult.reason,
      healthScore, healthStatus⟩
  let s2 := if anomalyResult.isAnomaly then logAnomaly s1 rawData anomalyResult.reason else s1
  let s3 := recordHealthHistory s2 healthScore
  pure (result, s3)

/-- The value `receiveData` computes (it never actually throws:
`receiveData_ok`). -/
def receiveDataPure (s : PlatformState) (rawData : Reading) :
    ReceiveResult × PlatformState :=
  let isComplete := validateDataCompleteness rawData
  let isAccurate := validateDataAccuracy s.processedDataHistory rawData
  let anomalyResult := detectAnomalyPure rawData
  let healthScore := calculateHealthScore rawData
  let healthStatus := determineHealthStatus healthScore
  let s1 := recordProcessedData s rawData healthScore anomalyResult
  let result : ReceiveResult :=
    ⟨rawData, isComplete, isAccurate, anomalyResult.isAnomaly, anomalyResult.reason,
      healthScore, healthStatus⟩
  let s2 := if anomalyResult.isAnomaly then logAnomaly s1 rawData anomalyResult.reason else s1
  let s3 := recordHealthHistory s2 healthScore
  (result, s3)

/-- `receiveData` returns normally on every input (including readings with
missing or null fields). -/
theorem receiveData_ok (s : PlatformState) (rawData : Reading) :
    receiveData s rawData = .ok (receiveDataPure s rawData) := by
  simp [receiveData, receiveDataPure, detectAnomaly_ok, Bind.bind, Except.bind,
    Pure.pure, Except.pure]

/-- One ingest step as a state transformer. -/
def stepState (s : PlatformState) (rawData : Reading) : PlatformState :=
  (receiveDataPure s rawData).2

/-- Ingest a whole sequence of readings from module start. -/
def ingestAll (rs : List Reading) : PlatformState :=
  rs.foldl stepState initialState

/-! ## Statistics helpers

`Math.sqrt` has no exact rational counterpart; the report engine is
parameterised by a square-root interpretation `sq : ℚ → ℚ`.  No claim
depends on its value. -/

/-- `values.reduce((sum, v) => sum + v, 0)`: one missing/`NaN` operand
poisons the whole sum. -/
def jsSum : List (Option ℚ) → Option ℚ
  | [] => some 0
  | a :: as =>
    match a, jsSum as with
    | some x, some s => some (x + s)
    | _, _ => none

/-- `calculateMean`: 0 for an empty list, else sum / length. -/
def calculateMean (values : List (Option ℚ)) : Option ℚ :=
  if values.length = 0 then some 0
  else (jsSum values).map fun s => s / values.length

/-- `calculateStandardDeviation` (square root abstracted as `sq`). -/
def calculateStandardDeviation (sq : ℚ → ℚ) (values : List (Option ℚ)) : Option ℚ :=
  if values.length = 0 then some 0
  else
    let mean := calculateMean values
    let squaredDifferences := values.map fun v =>
      match v, mean with
      | some x, some m => some ((x - m) ^ 2)
      | _, _ => none
    (calculateMean squaredDifferences).map sq

/-- `calculateCoefficientOfVariation`: stdDev / mean, 0 for an empty list
or a mean of exactly 0 (a `NaN` mean is not `=== 0` and poisons the quotient). -/
def calculateCoefficientOfVariation (sq : ℚ → ℚ) (values : List (Option ℚ)) : Option ℚ :=
  if values.length = 0 then some 0
  else
    let mean := calculateMean values
    if mean = some 0 then some 0
    else
      match calculateStandardDeviation sq values, mean with
      | some sd, some m => some (sd / m)
      | _, _ => none

/-- `Math.min(...values)` (call sites pass non-empty lists); a missing
operand makes the result `NaN`. -/
def jsMinL : List (Option ℚ) → Option ℚ
  | [] => none
  | [a] => a
  | a :: as =>
    match a, jsMinL as with
    | some x, some y => some (min x y)
    | _, _ => none

/-- `Math.max(...values)` (call sites pass non-empty lists). -/
def jsMaxL : List (Option ℚ) → Option ℚ
  | [] => none
  | [a] => a
  | a :: as =>
    match a, jsMaxL as with
    | some x, some y => some (max x y)
    | _, _ => none

/-- Fuel-bounded count of decimal digits of a terminating decimal. -/
def decDigitsFuel : ℕ → ℚ → ℕ
  | 0, _ => 0
  | n + 1, q => if q.den = 1 then 0 else decDigitsFuel n (q * 10) + 1

/-- JS template interpolation of a number value: shortest decimal rendering,
modelled for terminating decimals (every value interpolated below has been
rounded by `toFixed` first); `NaN` prints as `"NaN"`. -/
def jsNumStr (v : Option ℚ) : String :=
  match v with
  | none => "NaN"
  | some q => toFixedStr (decDigitsFuel 10 q) q

/-! ## Health report -/

/-- Per-metric block of `calculateKeyMetrics`.  The source stores the
`toFixed`-rendered strings; `detectIssues` reads them back through
`parseFloat`, which recovers exactly the rounded value — the model stores
that value (`none` = the string `"NaN"`). -/
structure MetricStats where
  mean : Option ℚ
  stdDev : Option ℚ
  min : Option ℚ
  max : Option ℚ
  unit : String
deriving DecidableEq

structure KeyMetrics where
  temperature : MetricStats
  voltage : MetricStats
  current : MetricStats
  vibration : MetricStats
  displacement : MetricStats
  tilt : MetricStats
deriving DecidableEq

/-- One per-metric block of `calculateKeyMetrics`: mean/stdDev/min/max of the
given value list, `toFixed`-rounded to the digit counts the source uses. -/
def metricStatsOf (sq : ℚ → ℚ) (dMean dStd dMinMax : ℕ)
    (values : List (Option ℚ)) (unit : String) : MetricStats where
  mean := (calculateMean values).map (toFixedQ dMean)
  stdDev := (calculateStandardDeviation sq values).map (toFixedQ dStd)
  min := (jsMinL values).map (toFixedQ dMinMax)
  max := (jsMaxL values).map (toFixedQ dMinMax)
  unit := unit

/-- `calculateKeyMetrics`: per-metric mean/stdDev/min/max over the retained
window (`none` = the empty object `{}`). -/
def calculateKeyMetrics (sq : ℚ → ℚ) (hist : List ProcessedRecord) : Option KeyMetrics :=
  if hist.length = 0 then none
  else
    some
      { temperature := metricStatsOf sq 1 2 1 (hist.map (·.data.temperature)) "°C"
        voltage := metricStatsOf sq 2 3 2 (hist.map (·.data.voltage)) "G"
        current := metricStatsOf sq 1 2 1 (hist.map (·.data.current)) "Z"
        vibration := metricStatsOf sq 3 4 3 (hist.map (·.data.vibration)) "g"
        displacement := metricStatsOf sq 2 3 2 (hist.map (·.data.displacement)) "mm"
        tilt := metricStatsOf sq 2 3 2 (hist.map (·.data.tilt)) "°" }

structure HealthScoreStats where
  current : ℤ
  average : ℚ
  trend : ℚ
  status : HealthStatus
deriving DecidableEq

structure AnomalyStats where
  count : ℕ
  rate : ℚ
deriving DecidableEq

/-- The health report (`timeString` — a wall-clock read — omitted).  The
source stores `trend` and `anomalyStats.rate` as `toFixed`-rendered strings
and later compares them numerically; the model keeps the rounded values. -/
structure HealthReport where
  duration : String
  healthScore : HealthScoreStats
  anomalyStats : AnomalyStats
  keyMetrics : Option KeyMetrics
  issues : List String
  recommendations : List String
deriving DecidableEq

/-- The fixed report `generateHealthReport` returns when fewer than 10
processed records are retained. -/
def insufficientHealthReport : HealthReport :=
  { duration := "不足"
    healthScore := ⟨0, 0, 0, ⟨"数据不足", "bg-gray-500"⟩⟩
    anomalyStats := ⟨0, 0⟩
    keyMetrics := none
    issues := ["数据不足，无法生成健康评估报告"]
    recommendations := ["请收集更多数据后再试"] }

/-- `needle` is a prefix of `hay` (character lists). -/
def startsWithChars : List Char → List Char → Bool
  | [], _ => true
  | _ :: _, [] => false
  | a :: as, b :: bs => (a == b) && startsWithChars as bs

/-- `hay.includes(needle)` on character lists. -/
def containsChars (needle : List Char) : List Char → Bool
  | [] => needle.isEmpty
  | b :: bs => startsWithChars needle (b :: bs) || containsChars needle bs

/-- JS `hay.includes(pat)`. -/
def strHasSub (hay pat : String) : Bool := containsChars pat.toList hay.toList

/-- `detectIssues`, minus the nested `generateHealthReport()` call: the
caller passes the inner report that call produced.  Mean values are read
back via `parseFloat` of the stored `toFixed` strings (exactly the rounded
values kept in `MetricStats`). -/
def detectIssuesList (s : PlatformState) (keyMetrics : Option KeyMetrics)
    (healthReport : HealthReport) : List String :=
  let metricIssues :=
    match keyMetrics with
    | none => []
    | some km =>
      (if oLt km.temperature.mean config.warningThresholds.temperature.min then
        ["温度偏低，平均值为 " ++ jsNumStr km.temperature.mean ++ "°C，低于警告阈值 18°C"]
      else if oGt km.temperature.mean config.warningThresholds.temperature.max then
        ["温度偏高，平均值为 " ++ jsNumStr km.temperature.mean ++ "°C，高于警告阈值 32°C"]
      else []) ++
      (if oLt km.voltage.mean config.warningThresholds.voltage.min then
        ["压力值偏低，平均值为 " ++ jsNumStr km.voltage.mean ++ "G，低于警告阈值 3G"]
      else if oGt km.voltage.mean config.warningThresholds.voltage.max then
        ["压力值偏高，平均值为 " ++ jsNumStr km.voltage.mean ++ "G，高于警告阈值 3.6G"]
      else []) ++
      (if oLt km.current.mean config.warningThresholds.current.min then
        ["震动程度偏低，平均值为 " ++ jsNumStr km.current.mean ++ "Z，低于警告阈值 120Z"]
      else if oGt km.current.mean config.warningThresholds.current.max then
        ["震动程度偏高，平均值为 " ++ jsNumStr km.current.mean ++ "Z，高于警告阈值 180Z"]
      else []) ++
      (if oGt km.vibration.mean config.warningThresholds.vibration.max then
        ["振动强度偏高，平均值为 " ++ jsNumStr km.vibration.mean ++ "g，高于警告阈值 0.08g"]
      else []) ++
      (if oGt km.displacement.mean config.warningThresholds.displacement.max then
        ["位移偏大，平均值为 " ++ jsNumStr km.displacement.mean ++ "mm，高于警告阈值 0.8mm"]
      else []) ++
      (if oGt km.tilt.mean config.warningThresholds.tilt.max then
        ["倾斜角度偏大，平均值为 " ++ jsNumStr km.tilt.mean ++ "°，高于警告阈值 4°"]
      else [])
  let anomalyRateQ : ℚ :=
    toFixedQ 2 ((s.anomalyLog.length : ℚ) / (s.processedDataHistory.length : ℚ) * 100)
  let rateIssues :=
    if 5 < anomalyRateQ then
      ["异常率偏高，达到 " ++
        toFixedStr 2 ((s.anomalyLog.length : ℚ) / (s.processedDataHistory.length : ℚ) * 100) ++
        "%，超过5%的阈值"]
    else []
  let scoreIssues :=
    if healthReport.healthScore.current < 80 then
      ["当前健康评分较低，为 " ++ toString healthReport.healthScore.current ++
        "/100，建议检查系统状态"]
    else []
  let trendIssues :=
    if healthReport.healthScore.trend < -(1 / 2) then
      ["健康评分呈下降趋势，每分钟下降 " ++ jsNumStr (some |healthReport.healthScore.trend|) ++
        " 分，建议密切关注"]
    else []
  metricIssues ++ rateIssues ++ scoreIssues ++ trendIssues

/-- The advisory the source's `includes`-chain picks for one issue string
(at most one per issue). -/
def recommendationFor (issue : String) : List String :=
  if strHasSub issue "温度偏低" then ["检查温度传感器是否正常工作，确保设备处于适宜的工作环境温度范围内。"]
  else if strHasSub issue "温度偏高" then ["检查散热系统是否正常工作，确保设备通风良好，必要时增加散热措施。"]
  else if strHasSub issue "压力值偏低" then ["检查压力传感器是否正常工作，确保设备供电稳定。"]
  else if strHasSub issue "压力值偏高" then ["检查压力传感器是否正常工作，确保设备不会因过压而损坏。"]
  else if strHasSub issue "震动程度偏低" then ["检查震动传感器是否正常工作，确保传感器安装牢固。"]
  else if strHasSub issue "震动程度偏高" then ["检查设备是否安装牢固，必要时增加减震措施，减少外部干扰。"]
  else if strHasSub issue "振动强度偏高" then ["检查建筑结构是否稳定，必要时进行结构加固，减少振动源。"]
  else if strHasSub issue "位移偏大" then ["检查建筑基础是否稳定，必要时进行地基加固或调整设备安装位置。"]
  else if strHasSub issue "倾斜角度偏大" then ["检查建筑结构是否存在倾斜风险，必要时进行结构调整或加固。"]
  else if strHasSub issue "异常率偏高" then ["检查传感器是否正常工作，数据传输是否稳定，必要时更换故障设备。"]
  else if strHasSub issue "健康评分较低" then ["全面检查系统各组件，识别并解决潜在问题，提高系统整体健康水平。"]
  else if strHasSub issue "健康评分呈下降趋势" then ["增加监控频率，密切关注系统状态变化，及时采取措施防止问题恶化。"]
  else []

/-- `generateRecommendations`. -/
def generateRecommendations (issues : List String) : List String :=
  if issues.length = 0 then
    ["系统运行正常，建议保持当前监控频率，定期生成健康评估报告以跟踪系统状态变化。"]
  else
    (issues.map recommendationFor).flatten ++
      ["定期生成健康评估报告，跟踪系统状态变化趋势，建立预防性维护机制。"]

/-- The statistics block of `generateHealthReport` for a window of ≥ 10
records, assembled around the issue list produced by `detectIssues`. -/
def mkHealthReport (s : PlatformState) (keyMetrics : Option KeyMetrics)
    (issues : List String) : HealthReport :=
  let hist := s.processedDataHistory
  let healthScores := hist.map (·.healthScore)
  let currentHealthScore := (healthScores.getLast?).getD 0
  let avgHealthScore : ℚ := ((healthScores.foldl (· + ·) 0 : ℤ) : ℚ) / (healthScores.length : ℚ)
  let healthTrend : ℚ :=
    if 10 ≤ healthScores.length then
      let recentScores := healthScores.drop (healthScores.length - 10)
      let firstScore := (recentScores.head?).getD 0
      let lastScore := (recentScores.getLast?).getD 0
      let t2 := (((hist.getLast?).map (·.timestamp)).getD 0)
      let t1 := (((hist.get? (hist.length - 10)).map (·.timestamp)).getD 0)
      let timeDiff := (t2 - t1) / 60000
      if 0 < timeDiff then toFixedQ 2 (((lastScore : ℚ) - (firstScore : ℚ)) / timeDiff) else 0
    else 0
  let anomalyCount := s.anomalyLog.length
  let anomalyRate : ℚ := toFixedQ 2 ((anomalyCount : ℚ) / (hist.length : ℚ) * 100)
  let startTime := (((hist.head?).map (·.timestamp)).getD 0)
  let endTime := (((hist.getLast?).map (·.timestamp)).getD 0)
  -- Math.floor and % on the minute span: T-division suffices for the
  -- nonnegative spans of chronologically ordered histories
  let durationMinutes : ℤ := jround ((endTime - startTime) / 60000)
  let duration :=
    if durationMinutes < 60 then toString durationMinutes ++ "分钟"
    else toString (durationMinutes / 60) ++ "小时" ++ toString (durationMinutes % 60) ++ "分钟"
  { duration := duration
    healthScore :=
      { current := currentHealthScore
        average := avgHealthScore
        trend := healthTrend
        status := determineHealthStatus currentHealthScore }
    anomalyStats := { count := anomalyCount, rate := anomalyRate }
    keyMetrics := keyMetrics
    issues := issues
    recommendations := generateRecommendations issues }

/-- `generateHealthReport`, fuel-bounded: `detectIssues` calls
`generateHealthReport()` again (source line 618), which in turn calls
`detectIssues` (source line 460) — the inner call consumes one unit of
fuel.  `none` means the fuel ran out before the call returned. -/
def generateHealthReportFuel (sq : ℚ → ℚ) (s : PlatformState) : ℕ → Option HealthReport
  | 0 =>
    if s.processedDataHistory.length < 10 then some insufficientHealthReport
    else none
  | n + 1 =>
    if s.processedDataHistory.length < 10 then some insufficientHealthReport
    else
      let keyMetrics := calculateKeyMetrics sq s.processedDataHistory
      match generateHealthReportFuel sq s n with
      | none => none
      | some inner => some (mkHealthReport s keyMetrics (detectIssuesList s keyMetrics inner))

/-! ## Data quality report -/

/-- One sub-score of the quality report: the rendered percentage string and
the numeric score (`none` models a `NaN` score, possible for stability). -/
structure QualityMetric where
  value : String
  score : Option ℚ
deriving DecidableEq

/-- `calculateDataCompleteness`: share of retained records with all six
fields present (the source re-walks the required fields inline; the test
coincides with `validateDataCompleteness`). -/
def calculateDataCompleteness (hist : List ProcessedRecord) : QualityMetric :=
  if hist.length = 0 then ⟨"0%", some 0⟩
  else
    let completeCount := hist.countP fun item => validateDataCompleteness item.data
    let pct : ℚ := (completeCount : ℚ) / (hist.length : ℚ) * 100
    ⟨toFixedStr 1 pct ++ "%", some (min 100 (max 0 ((jround (toFixedQ 1 pct) : ℤ) : ℚ)))⟩

/-- `calculateDataAccuracy`: share of retained records whose stored reading
passes `validateDataAccuracy` — evaluated against the *current* full
history (the closure reads the live `processedDataHistory`). -/
def calculateDataAccuracy (hist : List ProcessedRecord) : QualityMetric :=
  if hist.length = 0 then ⟨"0%", some 0⟩
  else
    let accurateCount := hist.countP fun item => validateDataAccuracy hist item.data
    let pct : ℚ := (accurateCount : ℚ) / (hist.length : ℚ) * 100
    ⟨toFixedStr 1 pct ++ "%", some (min 100 (max 0 ((jround (toFixedQ 1 pct) : ℤ) : ℚ)))⟩

/-- `calculateDataStability`: mean coefficient of variation over the six
metrics mapped to a 0–100 score (`NaN` poisons the score when a metric is
missing somewhere in the window). -/
def calculateDataStability (sq : ℚ → ℚ) (hist : List ProcessedRecord) : QualityMetric :=
  if hist.length < 10 then ⟨"0%", some 0⟩
  else
    let tempCV := calculateCoefficientOfVariation sq (hist.map (·.data.temperature))
    let voltageCV := calculateCoefficientOfVariation sq (hist.map (·.data.voltage))
    let currentCV := calculateCoefficientOfVariation sq (hist.map (·.data.current))
    let vibrationCV := calculateCoefficientOfVariation sq (hist.map (·.data.vibration))
    let displacementCV := calculateCoefficientOfVariation sq (hist.map (·.data.displacement))
    let tiltCV := calculateCoefficientOfVariation sq (hist.map (·.data.tilt))
    match tempCV, voltageCV, currentCV, vibrationCV, displacementCV, tiltCV with
    | some a, some b, some c, some d, some e, some f =>
      let avgCV := (a + b + c + d + e + f) / 6
      let stabilityScore : ℚ := ((jround ((1 - min (avgCV / (1 / 10)) 1) * 100) : ℤ) : ℚ)
      let clamped := max 0 (min 100 stabilityScore)
      ⟨toFixedStr 1 clamped ++ "%", some clamped⟩
    | _, _, _, _, _, _ => ⟨"NaN%", none⟩

/-- `generateDataQualityRecommendations`. -/
def generateDataQualityRecommendations (completeness accuracy stability : QualityMetric) :
    List String :=
  (if oLt completeness.score config.dataQualityParams.completenessThreshold then
    ["数据完整性较低(" ++ completeness.value ++
      ")，建议检查传感器连接是否稳定，数据采集程序是否正常运行，确保所有必要数据字段都能正确采集。"]
  else []) ++
  (if oLt accuracy.score config.dataQualityParams.accuracyThreshold then
    ["数据准确性较低(" ++ accuracy.value ++
      ")，建议校准传感器，检查数据传输过程中是否存在干扰，确保采集的数据能够准确反映实际情况。"]
  else []) ++
  (if oLt stability.score config.dataQualityParams.stabilityThreshold then
    ["数据稳定性较低(" ++ stability.value ++
      ")，建议检查传感器安装是否牢固，环境是否存在较大波动，必要时调整采样频率或增加滤波算法。"]
  else []) ++
  (if oGe completeness.score config.dataQualityParams.completenessThreshold &&
      oGe accuracy.score config.dataQualityParams.accuracyThreshold &&
      oGe stability.score config.dataQualityParams.stabilityThreshold then
    ["数据质量良好，所有指标均达到要求，建议保持当前的数据采集和处理策略。"]
  else [])

structure QualityLevel where
  name : String
  color : String
deriving DecidableEq

structure QualityMetricsTriple where
  completeness : QualityMetric
  accuracy : QualityMetric
  stability : QualityMetric
deriving DecidableEq

/-- The data quality report (`metrics = none` is the empty `{}` of the
insufficient-data shape). -/
structure DataQualityReport where
  dataQualityScore : Option ℚ
  qualityLevel : QualityLevel
  metrics : Option QualityMetricsTriple
  recommendations : List String
deriving DecidableEq

/-- The fixed report `generateDataQualityReport` returns when fewer than 10
processed records are retained. -/
def insufficientQualityReport : DataQualityReport :=
  { dataQualityScore := some 0
    qualityLevel := ⟨"数据不足", "bg-gray-500"⟩
    metrics := none
    recommendations := ["数据不足，无法生成数据质量报告"] }

/-- `generateDataQualityReport`. -/
def generateDataQualityReport (sq : ℚ → ℚ) (s : PlatformState) : DataQualityReport :=
  if s.processedDataHistory.length < 10 then insufficientQualityReport
  else
    let completeness := calculateDataCompleteness s.processedDataHistory
    let accuracy := calculateDataAccuracy s.processedDataHistory
    let stability := calculateDataStability sq s.processedDataHistory
    let dataQualityScore : Option ℚ :=
      match completeness.score, accuracy.score, stability.score with
      | some c, some a, some st => some ((jround ((c + a + st) / 3) : ℤ) : ℚ)
      | _, _, _ => none
    let qualityLevel : QualityLevel :=
      if oGe dataQualityScore 90 then ⟨"优秀", "bg-green-500"⟩
      else if oGe dataQualityScore 80 then ⟨"良好", "bg-green-400"⟩
      else if oGe dataQualityScore 70 then ⟨"一般", "bg-blue-400"⟩
      else if oGe dataQualityScore 60 then ⟨"较差", "bg-yellow-500"⟩
      else ⟨"差", "bg-red-500"⟩
    { dataQualityScore := dataQualityScore
      qualityLevel := qualityLevel
      metrics := some ⟨completeness, accuracy, stability⟩
      recommendations := generateDataQualityRecommendations completeness accuracy stability }

/-! ## Definitions taken from the claims for comparison, and concrete inputs -/

/-- Amended C5: the accuracy sub-score counts records passing the
absolute-bound check alone (the rate-of-change part of
`validateDataAccuracy` can never fire, see `validateDataAccuracy_eq_absolute`). -/
def accuracyAbsOnly (hist : List ProcessedRecord) : QualityMetric :=
  if hist.length = 0 then ⟨"0%", some 0⟩
  else
    let accurateCount := hist.countP fun item => absoluteBoundsOk item.data
    let pct : ℚ := (accurateCount : ℚ) / (hist.length : ℚ) * 100
    ⟨toFixedStr 1 pct ++ "%", some (min 100 (max 0 ((jround (toFixedQ 1 pct) : ℤ) : ℚ)))⟩

/-- All six per-metric deltas within the claim's ceilings (a missing value
on either side never fails, mirroring the NaN comparison). -/
def deltaWithin (prev cur : Reading) : Bool :=
  !(oAbsGt cur.temperature prev.temperature 5) &&
  !(oAbsGt cur.voltage prev.voltage (1 / 2)) &&
  !(oAbsGt cur.current prev.current 50) &&
  !(oAbsGt cur.vibration prev.vibration (1 / 20)) &&
  !(oAbsGt cur.displacement prev.displacement (1 / 2)) &&
  !(oAbsGt cur.tilt prev.tilt 2)

/-- Claim C5's per-record accuracy check: absolute bounds, plus the
rate-of-change test against the record's own predecessor when it has one. -/
def claimedAccurate : Option Reading → Reading → Bool
  | none, cur => absoluteBoundsOk cur
  | some prev, cur => absoluteBoundsOk cur && deltaWithin prev cur

/-- The per-record verdicts of `claimedAccurate` along a reading sequence. -/
def claimedAccurateFlags : Option Reading → List Reading → List Bool
  | _, [] => []
  | prev, r :: rs => claimedAccurate prev r :: claimedAccurateFlags (some r) rs

/-- The accuracy sub-score exactly as claim C5 states it: the percentage of
retained records passing the absolute-bound plus rate-of-change check,
the rate part re-evaluated against each record's own historical
predecessor within the retained window. -/
def claimedAccuracySpec (hist : List ProcessedRecord) : QualityMetric :=
  if hist.length = 0 then ⟨"0%", some 0⟩
  else
    let accurateCount := (claimedAccurateFlags none (hist.map (·.data))).count true
    let pct : ℚ := (accurateCount : ℚ) / (hist.length : ℚ) * 100
    ⟨toFixedStr 1 pct ++ "%", some (min 100 (max 0 ((jround (toFixedQ 1 pct) : ℤ) : ℚ)))⟩

/-- A reading with every metric absent. -/
def emptyReading (ts : ℚ) : Reading := ⟨ts, none, none, none, none, none, none⟩

/-- A reading with every metric inside its normal range. -/
def normalReading (ts : ℚ) : Reading :=
  ⟨ts, some 25, some (33 / 10), some 150, some (1 / 20), some (1 / 2), some 2⟩

/-- A normal reading with one field (voltage) missing. -/
def demoMissingReading : Reading :=
  ⟨0, some 25, none, some 150, some (1 / 20), some (1 / 2), some 2⟩

/-- A processed record of a normal reading. -/
def demoRecord (ts : ℚ) : ProcessedRecord := ⟨ts, normalReading ts, 100, false, ""⟩

/-- A state retaining ten processed normal readings. -/
def demoState10 : PlatformState :=
  ⟨(List.range 10).map fun i => demoRecord i, [], (List.range 10).map fun _ => ⟨100⟩⟩

/-- A state retaining one processed normal reading (temperature 25). -/
def demoPrevState : PlatformState := ⟨[demoRecord 0], [], []⟩

/-- A reading whose temperature jumps by 10 (> the ceiling 5) from the
retained record of `demoPrevState`, all values within absolute bounds. -/
def demoJumpReading : Reading :=
  ⟨60000, some 35, some (33 / 10), some 150, some (1 / 20), some (1 / 2), some 2⟩

/-- A reading with two simultaneously anomalous metrics: temperature 40
(> 35) and voltage 3.9 (> 3.8). -/
def cexAnomalyReading : Reading :=
  ⟨0, some 40, some (39 / 10), some 150, some (1 / 20), some (1 / 2), some 2⟩

/-- Ten retained records whose temperatures are 25, 31, 25, 25, …: the
second and third record each jump by 6 (> ceiling 5) from their own
predecessor, while every reading passes the absolute bounds. -/
def demoHistC5 : List ProcessedRecord :=
  (List.range 10).map fun i =>
    ⟨(i : ℚ), ⟨(i : ℚ), some (if i = 1 then 31 else 25), some (33 / 10), some 150,
      some (1 / 20), some (1 / 2), some 2⟩, 100, false, ""⟩

/-! ## Helper lemmas for the history-log invariant -/

/-- The three logs of a state are within their caps (`anomalyLog` is capped
by the literal `1000` in the source; it equals `config.historyLimit`). -/
def boundedLogs (s : PlatformState) : Prop :=
  s.processedDataHistory.length ≤ config.historyLimit ∧
  s.anomalyLog.length ≤ 1000 ∧
  s.healthHistory.length ≤ config.historyLimit

theorem jsPush_length_le {α : Type} (l : List α) (e : α) (cap : ℕ)
    (h : l.length ≤ cap) : (jsPush l e cap).length ≤ cap := by
  simp only [jsPush]
  split_ifs with hc
  · simp_all
  · simp_all

theorem stepState_boundedLogs (s : PlatformState) (d : Reading)
    (h : boundedLogs s) : boundedLogs (stepState s d) := by
  obtain ⟨h1, h2, h3⟩ := h
  unfold stepState receiveDataPure
  cases hA : (detectAnomalyPure d).isAnomaly <;>
    simp only [hA, if_true, if_false, Bool.false_eq_true, recordProcessedData,
      recordHealthHistory, logAnomaly, boundedLogs] <;>
    refine ⟨jsPush_length_le _ _ _ h1, ?_, jsPush_length_le _ _ _ h3⟩
  · exact h2
  · exact jsPush_length_le _ _ _ h2

theorem foldl_boundedLogs (rs : List Reading) (s : PlatformState)
    (h : boundedLogs s) : boundedLogs (rs.foldl stepState s) := by
  induction rs generalizing s with
  | nil => exact h
  | cons r rs ih => exact ih _ (stepState_boundedLogs s r h)

/-! ## The claims -/

/-- C1 — the claim FAILS on the code (code bug): whenever at least 10
processed records are retained, `generateHealthReport` and `detectIssues`
re-enter each other unconditionally (source lines 460 and 618), so the call
never runs to completion: for every fuel bound the fuel-indexed model runs
out instead of returning a report. -/
theorem generateHealthReport_never_terminates (sq : ℚ → ℚ) (s : PlatformState) (n : ℕ)
    (h : 10 ≤ s.processedDataHistory.length) :
    generateHealthReportFuel sq s n = none := by
  induction n with
  | zero =>
    rw [generateHealthReportFuel]
    exact if_neg (by omega)
  | succ n ih =>
    rw [generateHealthReportFuel, if_neg (by omega), ih]

theorem generateHealthReport_never_terminates_witness :
    10 ≤ demoState10.processedDataHistory.length ∧
      generateHealthReportFuel id demoState10 5 = none :=
  ⟨by with_unfolding_all decide,
   generateHealthReport_never_terminates id demoState10 5 (by with_unfolding_all decide)⟩

/-- C2 — the claim FAILS on the code (code bug): the previous reading of
`demoPrevState` has temperature 25, the next reading `demoJumpReading` has
temperature 35 — a delta of 10, twice the ceiling 5, with every value
inside the absolute bounds — yet `receiveData` reports `isAccurate = true`:
the rate-of-change block reads `lastData.temperature`, a field absent from
the history record (the reading lives under `.data`), so no delta test can
ever fire. -/
theorem rateOfChange_violation_still_accurate :
    oAbsGt demoJumpReading.temperature (demoRecord 0).data.temperature 5 = true ∧
    absoluteBoundsOk demoJumpReading = true ∧
    validateDataAccuracy demoPrevState.processedDataHistory demoJumpReading = true ∧
    (receiveDataPure demoPrevState demoJumpReading).1.isAccurate = true := by
  with_unfolding_all decide

/-- C3 counterexample: on a reading whose temperature (40 > 35) *and*
voltage (3.9 > 3.8) are both anomalous, `detectAnomaly` reports the
voltage reason — the *last* out-of-bounds metric in evaluation order — not
the temperature reason the claim's first-match-wins rule dictates. -/
theorem detectAnomaly_not_first_match :
    tempHighB cexAnomalyReading = true ∧ voltHighB cexAnomalyReading = true ∧
    detectAnomaly cexAnomalyReading = .ok ⟨true, "压力值过高 (3.90G > 3.8G)"⟩ ∧
    "压力值过高 (3.90G > 3.8G)" ≠ "温度过高 (40.0°C > 35°C)" := by
  refine ⟨by with_unfolding_all decide, by with_unfolding_all decide, ?_, by decide⟩
  rw [detectAnomaly_ok]
  refine congrArg Except.ok ?_
  norm_num [detectAnomalyPure, tempStepPure, voltageStepPure, currentStepPure,
    vibrationStepPure, displacementStepPure, tiltStepPure, tempLowB, tempHighB,
    voltLowB, voltHighB, curLowB, curHighB, vibHighB, dispHighB, tiltHighB,
    oLt, oGt, cexAnomalyReading, config, nanToFixed]
  with_unfolding_all decide

/-- C3 amended: for every reading `detectAnomaly` returns normally,
evaluates all six metric blocks (no early stop), and reports `isAnomaly`
with exactly one reason — that of the *last* out-of-bounds metric in the
order temperature, voltage, current, vibration, displacement, tilt. -/
theorem detectAnomaly_last_match_wins (d : Reading) :
    detectAnomaly d = .ok (lastMatchSpec d) := by
  rw [detectAnomaly_ok, detectAnomalyPure_eq_lastMatch]

/-- C4: `receiveData` returns normally on every reading, including ones
with missing/null fields; a missing field only makes `isComplete = false`,
while scoring, anomaly detection and storage still happen on the values
present. -/
theorem receiveData_never_raises (s : PlatformState) (d : Reading) :
    receiveData s d = .ok (receiveDataPure s d) ∧
    (validateDataCompleteness d = false → (receiveDataPure s d).1.isComplete = false) ∧
    (receiveDataPure s d).1.healthScore = calculateHealthScore d ∧
    (receiveDataPure s d).1.isAnomaly = (detectAnomalyPure d).isAnomaly ∧
    (receiveDataPure s d).2.processedDataHistory =
      jsPush s.processedDataHistory
        ⟨d.timestamp, d, calculateHealthScore d, (detectAnomalyPure d).isAnomaly,
          (detectAnomalyPure d).reason⟩ config.historyLimit := by
  refine ⟨receiveData_ok s d, fun h => h, rfl, rfl, ?_⟩
  cases hA : (detectAnomalyPure d).isAnomaly <;>
    simp [receiveDataPure, recordProcessedData, recordHealthHistory, logAnomaly, hA]

theorem receiveData_never_raises_witness :
    validateDataCompleteness demoMissingReading = false ∧
    receiveData initialState demoMissingReading =
      .ok (receiveDataPure initialState demoMissingReading) ∧
    (receiveDataPure initialState demoMissingReading).1.isComplete = false :=
  ⟨by decide, (receiveData_never_raises initialState demoMissingReading).1,
   (receiveData_never_raises initialState demoMissingReading).2.1 (by decide)⟩

/-- C5 counterexample: on `demoHistC5` (temperatures 25, 31, 25, 25, …) the
source's accuracy sub-score is 100% — every record is checked against the
*latest* record and the inert delta tests never fire — while the claim's
predecessor-based re-evaluation yields 80% (records 2 and 3 each jump by
6 > 5 from their own predecessor). -/
theorem dataAccuracy_not_predecessor_based :
    (calculateDataAccuracy demoHistC5).score = some 100 ∧
    (claimedAccuracySpec demoHistC5).score = some 80 ∧
    (calculateDataAccuracy demoHistC5).score ≠ (claimedAccuracySpec demoHistC5).score := by
  with_unfolding_all decide

/-- C5 amended: the data-quality accuracy sub-score equals the percentage
of retained records whose stored reading passes the absolute-bound check
alone — the rate-of-change component never affects it (the previous-record
fields are read at the wrong path and no delta test can fire). -/
theorem dataAccuracy_absolute_bounds_only (hist : List ProcessedRecord) :
    calculateDataAccuracy hist = accuracyAbsOnly hist := by
  unfold calculateDataAccuracy accuracyAbsOnly
  simp only [validateDataAccuracy_eq_absolute]

/-- C6 counterexample: vibration's configured anomaly bound (0.09) lies
*below* its normal max (0.1), so a vibration value exactly at the anomaly
boundary scores 100, not the claimed 0. -/
theorem anomaly_boundary_not_zero_scored :
    calculateUpperBoundScore (some config.anomalyThresholds.vibration.max)
      config.normalRanges.vibration.max config.anomalyThresholds.vibration.max = 100 ∧
    (100 : ℚ) ≠ 0 := by
  with_unfolding_all decide

/-- C6 amended: for the two-sided metrics (temperature, voltage, current) a
value exactly at an anomaly boundary scores 0; for the one-sided metrics
(vibration, displacement, tilt) the anomaly max sits below the normal max,
so a value exactly at the anomaly boundary scores 100.  For every metric
the anomaly flag is strict: false at `value == bound`, true strictly
beyond it. -/
theorem anomaly_boundary_semantics :
    calculateMetricScore (some config.anomalyThresholds.temperature.min)
      config.normalRanges.temperature.min config.normalRanges.temperature.max
      config.anomalyThresholds.temperature.min config.anomalyThresholds.temperature.max = 0 ∧
    calculateMetricScore (some config.anomalyThresholds.temperature.max)
      config.normalRanges.temperature.min config.normalRanges.temperature.max
      config.anomalyThresholds.temperature.min config.anomalyThresholds.temperature.max = 0 ∧
    calculateMetricScore (some config.anomalyThresholds.voltage.min)
      config.normalRanges.voltage.min config.normalRanges.voltage.max
      config.anomalyThresholds.voltage.min config.anomalyThresholds.voltage.max = 0 ∧
    calculateMetricScore (some config.anomalyThresholds.voltage.max)
      config.normalRanges.voltage.min config.normalRanges.voltage.max
      config.anomalyThresholds.voltage.min config.anomalyThresholds.voltage.max = 0 ∧
    calculateMetricScore (some config.anomalyThresholds.current.min)
      config.normalRanges.current.min config.normalRanges.current.max
      config.anomalyThresholds.current.min config.anomalyThresholds.current.max = 0 ∧
    calculateMetricScore (some config.anomalyThresholds.current.max)
      config.normalRanges.current.min config.normalRanges.current.max
      config.anomalyThresholds.current.min config.anomalyThresholds.current.max = 0 ∧
    calculateUpperBoundScore (some config.anomalyThresholds.vibration.max)
      config.normalRanges.vibration.max config.anomalyThresholds.vibration.max = 100 ∧
    calculateUpperBoundScore (some config.anomalyThresholds.displacement.max)
      config.normalRanges.displacement.max config.anomalyThresholds.displacement.max = 100 ∧
    calculateUpperBoundScore (some config.anomalyThresholds.tilt.max)
      config.normalRanges.tilt.max config.anomalyThresholds.tilt.max = 100 ∧
    (detectAnomalyPure { normalReading 0 with temperature := some 35 }).isAnomaly = false ∧
    (detectAnomalyPure { normalReading 0 with temperature := some (351 / 10) }).isAnomaly = true ∧
    (detectAnomalyPure { normalReading 0 with temperature := some 15 }).isAnomaly = false ∧
    (detectAnomalyPure { normalReading 0 with temperature := some (149 / 10) }).isAnomaly = true ∧
    (detectAnomalyPure { normalReading 0 with voltage := some (19 / 5) }).isAnomaly = false ∧
    (detectAnomalyPure { normalReading 0 with voltage := some (381 / 100) }).isAnomaly = true ∧
    (detectAnomalyPure { normalReading 0 with voltage := some (14 / 5) }).isAnomaly = false ∧
    (detectAnomalyPure { normalReading 0 with voltage := some (279 / 100) }).isAnomaly = true ∧
    (detectAnomalyPure { normalReading 0 with current := some 200 }).isAnomaly = false ∧
    (detectAnomalyPure { normalReading 0 with current := some 201 }).isAnomaly = true ∧
    (detectAnomalyPure { normalReading 0 with current := some 100 }).isAnomaly = false ∧
    (detectAnomalyPure { normalReading 0 with current := some 99 }).isAnomaly = true ∧
    (detectAnomalyPure { normalReading 0 with vibration := some (9 / 100) }).isAnomaly = false ∧
    (detectAnomalyPure { normalReading 0 with vibration := some (91 / 1000) }).isAnomaly = true ∧
    (detectAnomalyPure { normalReading 0 with displacement := some (9 / 10) }).isAnomaly = false ∧
    (detectAnomalyPure { normalReading 0 with displacement := some (91 / 100) }).isAnomaly = true ∧
    (detectAnomalyPure { normalReading 0 with tilt := some (9 / 2) }).isAnomaly = false ∧
    (detectAnomalyPure { normalReading 0 with tilt := some (46 / 10) }).isAnomaly = true := by
  with_unfolding_all decide

/-- C7: after ingesting any sequence of readings from module start, each of
the three history logs holds at most `config.historyLimit` (= 1000)
entries; and pushing onto a log already at the cap evicts exactly the
oldest entry, preserving the insertion order of the rest (FIFO). -/
theorem history_logs_bounded_fifo :
    (∀ rs : List Reading,
      (ingestAll rs).processedDataHistory.length ≤ config.historyLimit ∧
      (ingestAll rs).anomalyLog.length ≤ config.historyLimit ∧
      (ingestAll rs).healthHistory.length ≤ config.historyLimit) ∧
    (∀ (α : Type) (l : List α) (e : α), l.length = config.historyLimit →
      jsPush l e config.historyLimit = l.tail ++ [e]) := by
  constructor
  · intro rs
    have h := foldl_boundedLogs rs initialState
      ⟨by simp [initialState], by simp [initialState], by simp [initialState]⟩
    exact ⟨h.1, h.2.1, h.2.2⟩
  · intro α l e h
    cases l with
    | nil => simp [config] at h
    | cons a as =>
      simp only [jsPush]
      rw [if_pos]
      · rfl
      · simp only [config, List.length_cons, List.length_append,
          List.length_singleton] at h ⊢
        omega

/-- A health log filled to the cap. -/
def demoFullLog : List HealthSample := List.replicate 1000 ⟨100⟩

theorem history_logs_bounded_fifo_witness :
    demoFullLog.length = config.historyLimit ∧
    jsPush demoFullLog (⟨0⟩ : HealthSample) config.historyLimit =
      demoFullLog.tail ++ [⟨0⟩] :=
  ⟨by rw [demoFullLog, List.length_replicate]; rfl,
   history_logs_bounded_fifo.2 HealthSample demoFullLog ⟨0⟩
     (by rw [demoFullLog, List.length_replicate]; rfl)⟩

/-- C8: every reading's composite health score is an integer (the result
type is ℤ) in the interval [0, 100]: the weighted total is rounded and
clamped. -/
theorem healthScore_in_unit_range (d : Reading) :
    0 ≤ calculateHealthScore d ∧ calculateHealthScore d ≤ 100 := by
  unfold calculateHealthScore
  exact ⟨le_max_left 0 _, max_le (by norm_num) (min_le_left _ _)⟩

/-- C9: with fewer than 10 retained records both report generators return
their fixed, well-formed insufficient-data shapes — zeroed score fields, an
insufficient-data status/level, and a single issue/recommendation pair —
and never fail (the health-report guard returns before the recursive
`detectIssues` call, for any fuel). -/
theorem insufficient_history_reports (sq : ℚ → ℚ) (s : PlatformState) (n : ℕ)
    (h : s.processedDataHistory.length < 10) :
    generateHealthReportFuel sq s n = some insufficientHealthReport ∧
    generateDataQualityReport sq s = insufficientQualityReport ∧
    insufficientHealthReport.healthScore.current = 0 ∧
    insufficientHealthReport.healthScore.average = 0 ∧
    insufficientHealthReport.healthScore.trend = 0 ∧
    insufficientHealthReport.healthScore.status = ⟨"数据不足", "bg-gray-500"⟩ ∧
    insufficientHealthReport.issues = ["数据不足，无法生成健康评估报告"] ∧
    insufficientHealthReport.recommendations = ["请收集更多数据后再试"] ∧
    insufficientQualityReport.dataQualityScore = some 0 ∧
    insufficientQualityReport.qualityLevel = ⟨"数据不足", "bg-gray-500"⟩ ∧
    insufficientQualityReport.recommendations = ["数据不足，无法生成数据质量报告"] := by
  refine ⟨?_, ?_, rfl, rfl, rfl, rfl, rfl, rfl, rfl, rfl, rfl⟩
  · cases n <;> simp [generateHealthReportFuel, h]
  · simp [generateDataQualityReport, h]

theorem insufficient_history_reports_witness :
    initialState.processedDataHistory.length < 10 ∧
    generateHealthReportFuel id initialState 3 = some insufficientHealthReport ∧
    generateDataQualityReport id initialState = insufficientQualityReport :=
  ⟨by decide, (insufficient_history_reports id initialState 3 (by decide)).1,
   (insufficient_history_reports id initialState 3 (by decide)).2.1⟩

/-- C10: a reading with all six metric fields absent is processed normally:
health score 0 (every per-metric score falls through to 0), not flagged
anomalous, empty reason, `isComplete = false`. -/
theorem all_missing_reading_result (s : PlatformState) (ts : ℚ) :
    receiveData s (emptyReading ts) = .ok (receiveDataPure s (emptyReading ts)) ∧
    (receiveDataPure s (emptyReading ts)).1.healthScore = 0 ∧
    (receiveDataPure s (emptyReading ts)).1.isAnomaly = false ∧
    (receiveDataPure s (emptyReading ts)).1.anomalyReason = "" ∧
    (receiveDataPure s (emptyReading ts)).1.isComplete = false := by
  refine ⟨receiveData_ok _ _, ?_, ?_, ?_, ?_⟩
  · show calculateHealthScore (emptyReading ts) = 0
    norm_num [calculateHealthScore, calculateMetricScore, calculateUpperBoundScore,
      emptyReading, oGe, oLe, config, jround]
  · show (detectAnomalyPure (emptyReading ts)).isAnomaly = false
    simp [detectAnomalyPure, tempStepPure, voltageStepPure, currentStepPure,
      vibrationStepPure, displacementStepPure, tiltStepPure, tempLowB, tempHighB,
      voltLowB, voltHighB, curLowB, curHighB, vibHighB, dispHighB, tiltHighB,
      oLt, oGt, emptyReading]
  · show (detectAnomalyPure (emptyReading ts)).reason = ""
    simp [detectAnomalyPure, tempStepPure, voltageStepPure, currentStepPure,
      vibrationStepPure, displacementStepPure, tiltStepPure, tempLowB, tempHighB,
      voltLowB, voltHighB, curLowB, curHighB, vibHighB, dispHighB, tiltHighB,
      oLt, oGt, emptyReading]
  · show validateDataCompleteness (emptyReading ts) = false
    simp [validateDataCompleteness, emptyReading]
